import Mathlib

/-!
Shallow embedding of the Tavily MCP server's dispatch core
(`src/mcp_servers/tavily_server/main.py`): the `call_tool` entry point,
the four capability handlers, and their result formatting.

Python dynamic values are modelled by `Val`; the raw argument mapping by an
association list; a Python exception propagating is an `Except.error`
carrying `str(e)`; the external Tavily client is an abstract `Backend`
record whose calls are logged so that theorems can speak about whether and
how the backend was invoked.
-/

set_option autoImplicit false

namespace Tavily

/-- Dynamic (Python-like) values that can appear in a tool's raw argument
mapping or in backend result fields. -/
inductive Val where
  | str (s : String)
  | int (n : Int)
  | bool (b : Bool)
  | list (l : List Val)

/-- A single quote character, `chr(39)`. -/
def sq : String := String.singleton (Char.ofNat 39)

/-- Python `repr` of a dynamic value (used by `str` on lists). -/
def pyRepr : Val → String
  | .str s => sq ++ s ++ sq
  | .int n => toString n
  | .bool b => if b then "True" else "False"
  | .list l => "[" ++ String.intercalate ", " (l.attach.map fun x => pyRepr x.1) ++ "]"
decreasing_by
  have hx := List.sizeOf_lt_of_mem x.2
  simp only [Val.list.sizeOf_spec]
  omega

/-- Python `str` of a dynamic value, as used by f-string interpolation. -/
def pyStr : Val → String
  | .str s => s
  | .int n => toString n
  | .bool b => if b then "True" else "False"
  | .list l => pyRepr (.list l)

/-- Python truthiness of a dynamic value. -/
def truthy : Val → Bool
  | .str s => !s.isEmpty
  | .int n => n != 0
  | .bool b => b
  | .list l => !l.isEmpty

/-- Helper for `pySplit`: scan characters, accumulating the current word
(reversed) and emitting it at each whitespace run or at the end. -/
def pyWordsAux (acc : List Char) : List Char → List String
  | [] => if acc.isEmpty then [] else [String.mk acc.reverse]
  | c :: cs =>
    if c.isWhitespace then
      if acc.isEmpty then pyWordsAux [] cs
      else String.mk acc.reverse :: pyWordsAux [] cs
    else pyWordsAux (c :: acc) cs

/-- Python `s.split()` with no separator: split on whitespace runs,
discarding empty fragments. -/
def pySplit (s : String) : List String := pyWordsAux [] s.data

/-- Python `s[:n]` for a nonnegative index: the first `n` characters. -/
def strTake (s : String) (n : Nat) : String := ⟨s.data.take n⟩

/-- Python `l[:v]` where the slice bound is a dynamic value: integers (and
booleans, which are integers in Python) slice; anything else raises
`TypeError`. -/
def pySliceVal {α : Type} (l : List α) (v : Val) : Except String (List α) :=
  match v with
  | .int k => .ok (if 0 ≤ k then l.take k.toNat else l.take ((l.length : Int) + k).toNat)
  | .bool b => .ok (l.take (if b then 1 else 0))
  | _ => .error "slice indices must be integers or None or have an __index__ method"

/-- Python `enumerate(l, n)`. -/
def enumFrom {α : Type} (n : Nat) : List α → List (Nat × α)
  | [] => []
  | x :: xs => (n, x) :: enumFrom (n + 1) xs

/-- The raw argument mapping handed to `call_tool` (a Python dict). -/
def Args : Type := List (String × Val)

/-- `str(KeyError(k))`: the key wrapped in single quotes. -/
def keyErrorText (k : String) : String := sq ++ k ++ sq

/-- Python `arguments[k]`: the value, or a raised `KeyError` rendered as
its `str`. -/
def pyGetItem (args : Args) (k : String) : Except String Val :=
  match List.lookup k args with
  | some v => .ok v
  | none => .error (keyErrorText k)

/-- One `TextContent(type="text", text=...)` response item. -/
structure TextContent where
  text : String

/-- The keyword arguments assembled for `tavily_client.search`. -/
structure SearchParams where
  query : Val
  max_results : Val
  include_domains : Option Val
  exclude_domains : Option Val

/-- One record of `response["results"]` for a search. -/
structure SearchRecord where
  title : Option Val
  url : Option Val
  content : Option Val
  score : Option Val

/-- The search backend's raw response dict (`results` key optional). -/
structure SearchResponse where
  results : Option (List SearchRecord)

/-- One record of `response["results"]` for an extraction. -/
structure ExtractRecord where
  url : Option Val
  raw_content : Option String
  images : Option (List Val)

/-- One record of `response["failed_results"]` for an extraction. -/
structure FailedRecord where
  url : Option Val
  error : Option Val

/-- The extraction backend's raw response dict. -/
structure ExtractResponse where
  results : Option (List ExtractRecord)
  failed_results : Option (List FailedRecord)

/-- The external Tavily client: each method either returns a raw result or
raises (an `Except.error` carrying the exception's `str`). -/
structure Backend where
  search : SearchParams → Except String SearchResponse
  qna_search : Val → Except String Val
  get_search_context : Val → Val → Except String String
  extract : Val → Val → Except String ExtractResponse

/-- A record of one call made to the backend client, with the arguments it
received. -/
inductive Call where
  | search (p : SearchParams)
  | qna_search (query : Val)
  | get_search_context (query max_tokens : Val)
  | extract (urls include_images : Val)

/-- Drop a domain filter unless it is truthy (`if include_domains:` in the
source). -/
def filterTruthy : Option Val → Option Val
  | some v => if truthy v then some v else none
  | none => none

/-- The `search_params` dict built by `handle_search` from the raw
arguments, given the already-fetched `query`. -/
def buildSearchParams (args : Args) (query : Val) : SearchParams :=
  { query := query
    max_results := (List.lookup "max_results" args).getD (.int 5)
    include_domains := filterTruthy (List.lookup "include_domains" args)
    exclude_domains := filterTruthy (List.lookup "exclude_domains" args) }

/-- The per-record block rendered by `handle_search`, fields defaulting to
`N/A` when absent. -/
def formatSearchResult (i : Nat) (r : SearchRecord) : String :=
  "\n**Result " ++ toString i ++ ":**\n**Title:** " ++ pyStr (r.title.getD (.str "N/A"))
    ++ "\n**URL:** " ++ pyStr (r.url.getD (.str "N/A"))
    ++ "\n**Content:** " ++ pyStr (r.content.getD (.str "N/A"))
    ++ "\n**Score:** " ++ pyStr (r.score.getD (.str "N/A"))
    ++ "\n---\n"

/-- The success text rendered by `handle_search` when at least one block
was produced. -/
def searchSuccessText (query : Val) (blocks : List String) : String :=
  "\n# Tavily Search Results for: \"" ++ pyStr query ++ "\"\n\nFound "
    ++ toString blocks.length ++ " results:\n\n" ++ String.join blocks
    ++ "\n\n**Search completed successfully.**\n"

/-- The body of `handle_search`'s `try` block after the backend returned a
response: slice, render blocks, and pick the empty/success text. A raised
slicing error escapes as `Except.error`. -/
def searchFormat (query max_results : Val) (response : SearchResponse) :
    Except String (List TextContent) :=
  match response.results with
  | some rs =>
    match pySliceVal rs max_results with
    | .error e => .error e
    | .ok sliced =>
      let blocks := (enumFrom 1 sliced).map fun p => formatSearchResult p.1 p.2
      if blocks.isEmpty then .ok [⟨"No search results found."⟩]
      else .ok [⟨searchSuccessText query blocks⟩]
  | none => .ok [⟨"No search results found."⟩]

/-- `handle_search`: fetch arguments (a missing `query` raises `KeyError`
past this handler), call the backend, format; faults inside the `try`
render as `Search failed: ...`. Returns the response together with the
log of backend calls made. -/
def handle_search (args : Args) (b : Backend) :
    Except String (List TextContent) × List Call :=
  match pyGetItem args "query" with
  | .error e => (.error e, [])
  | .ok query =>
    let max_results := (List.lookup "max_results" args).getD (.int 5)
    let params := buildSearchParams args query
    let inner : Except String (List TextContent) :=
      match b.search params with
      | .error e => .error e
      | .ok response => searchFormat query max_results response
    match inner with
    | .ok ts => (.ok ts, [.search params])
    | .error e => (.ok [⟨"Search failed: " ++ e⟩], [.search params])

/-- The success text rendered by `handle_qna_search`. -/
def qnaSuccessText (query answer : Val) : String :=
  "\n# Tavily Q&A Result for: \"" ++ pyStr query ++ "\"\n\n**Answer:** " ++ pyStr answer
    ++ "\n\n**Note:** This answer is generated from web sources and optimized for factual accuracy.\n"

/-- `handle_qna_search`: fetch `query` (KeyError if absent), call the
backend, format; backend faults render as `Q&A search failed: ...`. -/
def handle_qna_search (args : Args) (b : Backend) :
    Except String (List TextContent) × List Call :=
  match pyGetItem args "query" with
  | .error e => (.error e, [])
  | .ok query =>
    match b.qna_search query with
    | .ok answer => (.ok [⟨qnaSuccessText query answer⟩], [.qna_search query])
    | .error e => (.ok [⟨"Q&A search failed: " ++ e⟩], [.qna_search query])

/-- The success text rendered by `handle_get_context`: the context, a word
count recomputed from the returned text, and the requested token budget. -/
def contextSuccessText (query : Val) (context : String) (max_tokens : Val) : String :=
  "\n# Tavily Context for: \"" ++ pyStr query ++ "\"\n\n## Generated Context:\n\n"
    ++ context ++ "\n\n---\n**Context Length:** ~" ++ toString (pySplit context).length
    ++ " words\n**Max Tokens Requested:** " ++ pyStr max_tokens
    ++ "\n\n**Note:** This context is compiled from multiple web sources and formatted for RAG applications.\n"

/-- `handle_get_context`: fetch `query` (KeyError if absent) and
`max_tokens` (default 4000), call the backend, format; backend faults
render as `Context retrieval failed: ...`. -/
def handle_get_context (args : Args) (b : Backend) :
    Except String (List TextContent) × List Call :=
  match pyGetItem args "query" with
  | .error e => (.error e, [])
  | .ok query =>
    let max_tokens := (List.lookup "max_tokens" args).getD (.int 4000)
    match b.get_search_context query max_tokens with
    | .ok context =>
      (.ok [⟨contextSuccessText query context max_tokens⟩], [.get_search_context query max_tokens])
    | .error e =>
      (.ok [⟨"Context retrieval failed: " ++ e⟩], [.get_search_context query max_tokens])

/-- `result.get('raw_content', '')` for an extraction record. -/
def extractRecordContent (r : ExtractRecord) : String := r.raw_content.getD ""

/-- The content preview for an extraction record: the first 500 characters,
with an ellipsis appended exactly when the full content is longer. -/
def extractPreview (r : ExtractRecord) : String :=
  let content := extractRecordContent r
  if 500 < content.length then strTake content 500 ++ "..." else strTake content 500

/-- The `Images Found` line: present only when `include_images` is truthy
and the record's `images` value is truthy (a nonempty list). -/
def imagesLine (include_images : Val) (r : ExtractRecord) : String :=
  match r.images with
  | some imgs =>
    if truthy include_images && !imgs.isEmpty then
      "**Images Found:** " ++ toString imgs.length ++ " images\n"
    else ""
  | none => ""

/-- The per-record block rendered by `handle_extract_content` for a
successfully extracted URL. -/
def formatExtractRecord (include_images : Val) (i : Nat) (r : ExtractRecord) : String :=
  "\n**Extract " ++ toString i ++ ":**\n**URL:** " ++ pyStr (r.url.getD (.str "N/A"))
    ++ "\n**Content Preview:** " ++ extractPreview r
    ++ "\n**Full Content Length:** " ++ toString (extractRecordContent r).length ++ " characters\n"
    ++ imagesLine include_images r
    ++ "---\n"

/-- The line rendered for one failed extraction. -/
def formatFailedResult (f : FailedRecord) : String :=
  "- " ++ pyStr (f.url.getD (.str "Unknown URL")) ++ ": "
    ++ pyStr (f.error.getD (.str "Unknown error"))

/-- The overall extraction response text: both sections with their own
counts, with fallback sentences when a section is empty. -/
def extractSuccessText (blocks failedLines : List String) : String :=
  "\n# Tavily Content Extraction Results\n\n## Successfully Extracted ("
    ++ toString blocks.length ++ " URLs):\n\n"
    ++ (if blocks.isEmpty then "No content successfully extracted." else String.join blocks)
    ++ "\n\n## Failed Extractions (" ++ toString failedLines.length ++ " URLs):\n\n"
    ++ (if failedLines.isEmpty then "No failed extractions." else String.intercalate "\n" failedLines)
    ++ "\n\n**Extraction completed.**\n"

/-- The blocks `handle_extract_content` renders from `response["results"]`
(absent key: none). -/
def extractBlocks (include_images : Val) (response : ExtractResponse) : List String :=
  match response.results with
  | some rs => (enumFrom 1 rs).map fun p => formatExtractRecord include_images p.1 p.2
  | none => []

/-- The failed-extraction lines: rendered only when `failed_results` is
present and truthy (nonempty). -/
def extractFailedLines (response : ExtractResponse) : List String :=
  match response.failed_results with
  | some fs => if fs.isEmpty then [] else fs.map formatFailedResult
  | none => []

/-- `handle_extract_content`: fetch `urls` (KeyError if absent) and
`include_images` (default false), call the backend, format both sections;
backend faults render as `Content extraction failed: ...`. -/
def handle_extract_content (args : Args) (b : Backend) :
    Except String (List TextContent) × List Call :=
  match pyGetItem args "urls" with
  | .error e => (.error e, [])
  | .ok urls =>
    let include_images := (List.lookup "include_images" args).getD (.bool false)
    match b.extract urls include_images with
    | .ok response =>
      (.ok [⟨extractSuccessText (extractBlocks include_images response)
              (extractFailedLines response)⟩],
       [.extract urls include_images])
    | .error e =>
      (.ok [⟨"Content extraction failed: " ++ e⟩], [.extract urls include_images])

/-- The `try` body of `call_tool`: route by name; an unknown name raises
`ValueError` whose `str` is the message. -/
def dispatchStep (name : String) (args : Args) (b : Backend) :
    Except String (List TextContent) × List Call :=
  if name = "tavily_search" then handle_search args b
  else if name = "tavily_qna_search" then handle_qna_search args b
  else if name = "tavily_get_context" then handle_get_context args b
  else if name = "tavily_extract_content" then handle_extract_content args b
  else (.error ("Unknown tool: " ++ name), [])

/-- `call_tool`: dispatch, catching every escaped exception and rendering
it as `Error: {str(e)}`. Returns the response items and the backend call
log. -/
def call_tool (name : String) (args : Args) (b : Backend) :
    List TextContent × List Call :=
  match dispatchStep name args b with
  | (.ok ts, log) => (ts, log)
  | (.error e, log) => ([⟨"Error: " ++ e⟩], log)

/-- A concrete backend whose search finds nothing, used to instantiate
universally quantified theorems at explicit inputs. -/
def stubBackend : Backend where
  search := fun _ => .ok { results := some [] }
  qna_search := fun _ => .ok (.str "Paris")
  get_search_context := fun _ _ => .ok "alpha beta gamma delta epsilon zeta eta theta iota kappa"
  extract := fun _ _ => .ok { results := some [], failed_results := some [] }

/-- A fully populated search record used to instantiate theorems. -/
def searchRec1 : SearchRecord :=
  ⟨some (.str "T1"), some (.str "http://a"), some (.str "C1"), some (.str "0.9")⟩

/-- A search record with every field absent. -/
def searchRec2 : SearchRecord := ⟨none, none, none, none⟩

/-- A concrete successfully-extracted record. -/
def extractRec1 : ExtractRecord := ⟨some (.str "http://a"), some "abc", some [.str "img1"]⟩

/-- A concrete failed-extraction record. -/
def failedRec1 : FailedRecord := ⟨some (.str "http://b"), some (.str "timeout")⟩

/-- A concrete backend returning populated search and extraction results. -/
def richBackend : Backend where
  search := fun _ => .ok { results := some [searchRec1, searchRec2] }
  qna_search := fun _ => .ok (.str "Paris")
  get_search_context := fun _ _ => .ok "alpha beta gamma delta epsilon zeta eta theta iota kappa"
  extract := fun _ _ => .ok { results := some [extractRec1], failed_results := some [failedRec1] }

lemma enumFrom_length {α : Type} (n : Nat) (l : List α) :
    (enumFrom n l).length = l.length := by
  induction l generalizing n with
  | nil => rfl
  | cons x xs ih => simp [enumFrom, ih]

lemma map_enumFrom_ne_nil {α : Type} (f : Nat × α → String) (l : List α) (h : l ≠ []) :
    ((enumFrom 1 l).map f).isEmpty = false := by
  cases l with
  | nil => exact absurd rfl h
  | cons x xs => rfl

lemma searchFormat_shape (q m : Val) (resp : SearchResponse) :
    (∃ e, searchFormat q m resp = .error e) ∨ ∃ s, searchFormat q m resp = .ok [⟨s⟩] := by
  unfold searchFormat
  rcases resp with ⟨results⟩
  cases results with
  | none => exact .inr ⟨_, rfl⟩
  | some rs =>
    cases h : pySliceVal rs m with
    | error e => exact .inl ⟨e, by simp [h]⟩
    | ok sliced =>
      by_cases hb : ((enumFrom 1 sliced).map fun p => formatSearchResult p.1 p.2).isEmpty
      · exact .inr ⟨"No search results found.", by simp [h, hb]⟩
      · exact .inr ⟨searchSuccessText q ((enumFrom 1 sliced).map fun p => formatSearchResult p.1 p.2),
          by simp [h, hb]⟩

lemma handle_search_shape (args : Args) (b : Backend) :
    (∃ e, (handle_search args b).1 = .error e) ∨ ∃ s, (handle_search args b).1 = .ok [⟨s⟩] := by
  unfold handle_search
  cases hq : pyGetItem args "query" with
  | error e => exact .inl ⟨e, by simp⟩
  | ok query =>
    cases hb : b.search (buildSearchParams args query) with
    | error e => exact .inr ⟨"Search failed: " ++ e, by simp [hb]⟩
    | ok resp =>
      rcases searchFormat_shape query ((List.lookup "max_results" args).getD (.int 5)) resp with
        ⟨e, he⟩ | ⟨s, hs⟩
      · exact .inr ⟨"Search failed: " ++ e, by simp [hb, he]⟩
      · exact .inr ⟨s, by simp [hb, hs]⟩

lemma handle_qna_search_shape (args : Args) (b : Backend) :
    (∃ e, (handle_qna_search args b).1 = .error e) ∨
      ∃ s, (handle_qna_search args b).1 = .ok [⟨s⟩] := by
  unfold handle_qna_search
  cases hq : pyGetItem args "query" with
  | error e => exact .inl ⟨e, by simp⟩
  | ok query =>
    cases hb : b.qna_search query with
    | error e => exact .inr ⟨"Q&A search failed: " ++ e, by simp [hb]⟩
    | ok answer => exact .inr ⟨qnaSuccessText query answer, by simp [hb]⟩

lemma handle_get_context_shape (args : Args) (b : Backend) :
    (∃ e, (handle_get_context args b).1 = .error e) ∨
      ∃ s, (handle_get_context args b).1 = .ok [⟨s⟩] := by
  unfold handle_get_context
  cases hq : pyGetItem args "query" with
  | error e => exact .inl ⟨e, by simp⟩
  | ok query =>
    cases hb : b.get_search_context query ((List.lookup "max_tokens" args).getD (.int 4000)) with
    | error e => exact .inr ⟨"Context retrieval failed: " ++ e, by simp [hb]⟩
    | ok context =>
      exact .inr ⟨contextSuccessText query context
        ((List.lookup "max_tokens" args).getD (.int 4000)), by simp [hb]⟩

lemma handle_extract_content_shape (args : Args) (b : Backend) :
    (∃ e, (handle_extract_content args b).1 = .error e) ∨
      ∃ s, (handle_extract_content args b).1 = .ok [⟨s⟩] := by
  unfold handle_extract_content
  cases hq : pyGetItem args "urls" with
  | error e => exact .inl ⟨e, by simp⟩
  | ok urls =>
    cases hb : b.extract urls ((List.lookup "include_images" args).getD (.bool false)) with
    | error e => exact .inr ⟨"Content extraction failed: " ++ e, by simp [hb]⟩
    | ok resp =>
      exact .inr ⟨extractSuccessText
        (extractBlocks ((List.lookup "include_images" args).getD (.bool false)) resp)
        (extractFailedLines resp), by simp [hb]⟩

lemma dispatchStep_shape (name : String) (args : Args) (b : Backend) :
    (∃ e, (dispatchStep name args b).1 = .error e) ∨
      ∃ s, (dispatchStep name args b).1 = .ok [⟨s⟩] := by
  unfold dispatchStep
  split_ifs
  · exact handle_search_shape args b
  · exact handle_qna_search_shape args b
  · exact handle_get_context_shape args b
  · exact handle_extract_content_shape args b
  · exact .inl ⟨_, rfl⟩

lemma call_tool_fst (name : String) (args : Args) (b : Backend) :
    (call_tool name args b).1 =
      match (dispatchStep name args b).1 with
      | .ok ts => ts
      | .error e => [⟨"Error: " ++ e⟩] := by
  unfold call_tool
  rcases h : dispatchStep name args b with ⟨fst, snd⟩
  cases fst <;> simp

lemma call_tool_snd (name : String) (args : Args) (b : Backend) :
    (call_tool name args b).2 = (dispatchStep name args b).2 := by
  unfold call_tool
  rcases h : dispatchStep name args b with ⟨fst, snd⟩
  cases fst <;> simp

lemma dispatchStep_search (args : Args) (b : Backend) :
    dispatchStep "tavily_search" args b = handle_search args b := by
  simp [dispatchStep]

lemma dispatchStep_qna (args : Args) (b : Backend) :
    dispatchStep "tavily_qna_search" args b = handle_qna_search args b := by
  simp [dispatchStep]

lemma dispatchStep_ctx (args : Args) (b : Backend) :
    dispatchStep "tavily_get_context" args b = handle_get_context args b := by
  simp [dispatchStep]

lemma dispatchStep_extract (args : Args) (b : Backend) :
    dispatchStep "tavily_extract_content" args b = handle_extract_content args b := by
  simp [dispatchStep]

lemma call_tool_of_error {name : String} {args : Args} {b : Backend} {e : String}
    {log : List Call} (h : dispatchStep name args b = (.error e, log)) :
    call_tool name args b = ([⟨"Error: " ++ e⟩], log) := by
  unfold call_tool; rw [h]

lemma call_tool_of_ok {name : String} {args : Args} {b : Backend} {ts : List TextContent}
    {log : List Call} (h : dispatchStep name args b = (.ok ts, log)) :
    call_tool name args b = (ts, log) := by
  unfold call_tool; rw [h]

lemma strTake_length (s : String) (n : Nat) : (strTake s n).length = min n s.length := by
  have h : (strTake s n).length = (s.data.take n).length := rfl
  rw [h, List.length_take]
  rfl

lemma handle_search_log (args : Args) (b : Backend) (q : Val)
    (hq : List.lookup "query" args = some q) :
    (handle_search args b).2 = [.search (buildSearchParams args q)] := by
  unfold handle_search pyGetItem
  rw [hq]
  cases hb : b.search (buildSearchParams args q) with
  | error e => simp [hb]
  | ok resp =>
    cases h2 : searchFormat q ((List.lookup "max_results" args).getD (.int 5)) resp <;>
      simp [hb, h2]

lemma handle_extract_log (args : Args) (b : Backend) (u : Val)
    (hu : List.lookup "urls" args = some u) :
    (handle_extract_content args b).2 =
      [.extract u ((List.lookup "include_images" args).getD (.bool false))] := by
  unfold handle_extract_content pyGetItem
  rw [hu]
  cases hb : b.extract u ((List.lookup "include_images" args).getD (.bool false)) <;>
    simp [hb]

/-- Claim C1: for every capability name and every raw argument mapping,
`call_tool` returns a (single) text response and never lets an exception
propagate: every fault from lookup, argument handling, backend invocation
or formatting is caught and rendered as a text. -/
theorem call_tool_always_returns_text (name : String) (args : Args) (b : Backend) :
    ∃ s : String, (call_tool name args b).1 = [⟨s⟩] := by
  rcases dispatchStep_shape name args b with ⟨e, he⟩ | ⟨s, hs⟩
  · exact ⟨"Error: " ++ e, by rw [call_tool_fst, he]⟩
  · exact ⟨s, by rw [call_tool_fst, hs]⟩

/-- Claim C2: for every capability name other than the four registered
tools, `call_tool` returns (without throwing) an error text that contains
the literal unknown name. -/
theorem call_tool_unknown_tool (name : String) (args : Args) (b : Backend)
    (h1 : name ≠ "tavily_search") (h2 : name ≠ "tavily_qna_search")
    (h3 : name ≠ "tavily_get_context") (h4 : name ≠ "tavily_extract_content") :
    call_tool name args b = ([⟨"Error: " ++ ("Unknown tool: " ++ name)⟩], []) ∧
    ∃ p s : String, "Error: " ++ ("Unknown tool: " ++ name) = p ++ name ++ s := by
  constructor
  · apply call_tool_of_error
    unfold dispatchStep
    rw [if_neg h1, if_neg h2, if_neg h3, if_neg h4]
  · refine ⟨"Error: Unknown tool: ", "", ?_⟩
    rw [String.append_empty, ← String.append_assoc]
    rw [show ("Error: " ++ "Unknown tool: " : String) = "Error: Unknown tool: " from by decide]

/-- Witness for C2 at the concrete unknown name `"nope"`. -/
theorem call_tool_unknown_tool_witness :
    call_tool "nope" [] stubBackend = ([⟨"Error: " ++ ("Unknown tool: " ++ "nope")⟩], []) ∧
    ∃ p s : String, "Error: " ++ ("Unknown tool: " ++ "nope") = p ++ "nope" ++ s :=
  call_tool_unknown_tool "nope" [] stubBackend
    (by decide) (by decide) (by decide) (by decide)

/-- Counterexample to claim C3: invoking `tavily_search` with
`maxResults = 0` (below the declared minimum 1) does not stop at a
validation error: the backend search adapter is invoked (with
`max_results = 0`), so the call log is nonempty. -/
theorem search_max_results_zero_invokes_backend :
    (call_tool "tavily_search" [("query", Val.str "x"), ("max_results", Val.int 0)]
        stubBackend).2 = [Call.search ⟨Val.str "x", Val.int 0, none, none⟩] ∧
    (call_tool "tavily_search" [("query", Val.str "x"), ("max_results", Val.int 0)]
        stubBackend).2 ≠ [] := by
  have h : (call_tool "tavily_search" [("query", Val.str "x"), ("max_results", Val.int 0)]
      stubBackend).2 = [Call.search ⟨Val.str "x", Val.int 0, none, none⟩] := rfl
  exact ⟨h, by rw [h]; exact List.cons_ne_nil _ _⟩

/-- Claim C3 as amended: `handle_search` performs no range validation;
whatever `max_results` value the raw arguments carry (including the
out-of-range 0) is forwarded verbatim to the backend search call, which is
invoked exactly once. -/
theorem search_forwards_max_results_unvalidated (b : Backend) (m : Val) :
    (call_tool "tavily_search" [("query", Val.str "x"), ("max_results", m)] b).2 =
      [Call.search ⟨Val.str "x", m, none, none⟩] := by
  rw [call_tool_snd, dispatchStep_search]
  rw [handle_search_log [("query", Val.str "x"), ("max_results", m)] b (Val.str "x") rfl]
  rfl

/-- Counterexample to claim C4: invoking `tavily_extract_content` with 21
URLs (above the declared `maxItems` of 20) does not stop at a validation
error: the backend extraction adapter is invoked with all 21 URLs, so the
call log is nonempty. -/
theorem extract_21_urls_invokes_backend :
    (call_tool "tavily_extract_content"
        [("urls", Val.list (List.replicate 21 (Val.str "a")))] stubBackend).2 =
      [Call.extract (Val.list (List.replicate 21 (Val.str "a"))) (Val.bool false)] ∧
    (call_tool "tavily_extract_content"
        [("urls", Val.list (List.replicate 21 (Val.str "a")))] stubBackend).2 ≠ [] := by
  have h : (call_tool "tavily_extract_content"
      [("urls", Val.list (List.replicate 21 (Val.str "a")))] stubBackend).2 =
      [Call.extract (Val.list (List.replicate 21 (Val.str "a"))) (Val.bool false)] := rfl
  exact ⟨h, by rw [h]; exact List.cons_ne_nil _ _⟩

/-- Claim C4 as amended: `handle_extract_content` performs no item-count
validation; the `urls` list of any length (including more than 20 items)
is forwarded verbatim to the backend extraction call, which is invoked
exactly once. -/
theorem extract_forwards_urls_unvalidated (b : Backend) (l : List Val) :
    (call_tool "tavily_extract_content" [("urls", Val.list l)] b).2 =
      [Call.extract (Val.list l) (Val.bool false)] := by
  rw [call_tool_snd, dispatchStep_extract]
  rw [handle_extract_log [("urls", Val.list l)] b (Val.list l) rfl]
  rfl

/-- Claim C5: when a required parameter (`query` for the three search
capabilities, `urls` for extraction) is absent from the raw arguments, the
invocation fails with an error text naming exactly that parameter (the
rendered `KeyError`), and the backend is never called (empty call log). -/
theorem missing_required_parameter (args : Args) (b : Backend) :
    (List.lookup "query" args = none →
      call_tool "tavily_search" args b = ([⟨"Error: " ++ keyErrorText "query"⟩], []) ∧
      call_tool "tavily_qna_search" args b = ([⟨"Error: " ++ keyErrorText "query"⟩], []) ∧
      call_tool "tavily_get_context" args b = ([⟨"Error: " ++ keyErrorText "query"⟩], [])) ∧
    (List.lookup "urls" args = none →
      call_tool "tavily_extract_content" args b = ([⟨"Error: " ++ keyErrorText "urls"⟩], [])) ∧
    (∃ p s : String, "Error: " ++ keyErrorText "query" = p ++ "query" ++ s) ∧
    (∃ p s : String, "Error: " ++ keyErrorText "urls" = p ++ "urls" ++ s) := by
  refine ⟨fun hq => ⟨?_, ?_, ?_⟩, fun hu => ?_, ?_, ?_⟩
  · apply call_tool_of_error
    rw [dispatchStep_search]; unfold handle_search pyGetItem; rw [hq]
  · apply call_tool_of_error
    rw [dispatchStep_qna]; unfold handle_qna_search pyGetItem; rw [hq]
  · apply call_tool_of_error
    rw [dispatchStep_ctx]; unfold handle_get_context pyGetItem; rw [hq]
  · apply call_tool_of_error
    rw [dispatchStep_extract]; unfold handle_extract_content pyGetItem; rw [hu]
  · exact ⟨"Error: " ++ sq, sq, by simp [keyErrorText, String.append_assoc]⟩
  · exact ⟨"Error: " ++ sq, sq, by simp [keyErrorText, String.append_assoc]⟩

/-- Witness for C5 at the empty argument mapping. -/
theorem missing_required_parameter_witness :
    call_tool "tavily_search" [] stubBackend = ([⟨"Error: " ++ keyErrorText "query"⟩], []) ∧
    call_tool "tavily_extract_content" [] stubBackend =
      ([⟨"Error: " ++ keyErrorText "urls"⟩], []) :=
  ⟨((missing_required_parameter [] stubBackend).1 rfl).1,
   (missing_required_parameter [] stubBackend).2.1 rfl⟩

lemma ne_append_right_of_head {a p : String} (ca cp : Char)
    (ha : a.data.head? = some ca) (hp : p.data.head? = some cp) (hcc : ca ≠ cp)
    (e : String) : a ≠ p ++ e := by
  intro h
  apply hcc
  have hd := congrArg String.data h
  rw [String.data_append] at hd
  cases hq : p.data with
  | nil => rw [hq] at hp; exact absurd hp (by simp)
  | cons c cs =>
    rw [hq] at hd hp
    rw [hd] at ha
    simp only [List.cons_append, List.head?_cons, Option.some.injEq] at ha hp
    rw [← ha, ← hp]

/-- Claim C6: when search succeeds but the backend returns an empty result
list, the response text is the fixed sentence `No search results found.`,
which is nonempty and distinct from every failure text the search path can
produce. -/
theorem search_empty_results_sentence (args : Args) (b : Backend) (q : Val) (m : Int)
    (hq : List.lookup "query" args = some q)
    (hm : (List.lookup "max_results" args).getD (.int 5) = Val.int m)
    (hres : b.search (buildSearchParams args q) = .ok ⟨some []⟩) :
    (call_tool "tavily_search" args b).1 = [⟨"No search results found."⟩] ∧
    "No search results found." ≠ "" ∧
    (∀ e : String, "No search results found." ≠ "Search failed: " ++ e) ∧
    (∀ e : String, "No search results found." ≠ "Error: " ++ e) := by
  refine ⟨?_, by decide, ?_, ?_⟩
  · have hd : dispatchStep "tavily_search" args b =
        (.ok [⟨"No search results found."⟩], [.search (buildSearchParams args q)]) := by
      rw [dispatchStep_search]
      unfold handle_search pyGetItem
      rw [hq]
      simp [hm, hres, searchFormat, pySliceVal, enumFrom]
    rw [call_tool_of_ok hd]
  · exact fun e => ne_append_right_of_head 'N' 'S' (by decide) (by decide) (by decide) e
  · exact fun e => ne_append_right_of_head 'N' 'E' (by decide) (by decide) (by decide) e

/-- Witness for C6: a concrete search against a backend stub that returns
an empty result list. -/
theorem search_empty_results_sentence_witness :
    (call_tool "tavily_search" [("query", Val.str "x")] stubBackend).1 =
      [⟨"No search results found."⟩] :=
  (search_empty_results_sentence [("query", Val.str "x")] stubBackend (Val.str "x") 5
    rfl rfl rfl).1

/-- Claim C7: a successful context retrieval renders the returned context,
the requested `max_tokens` value, and a word count computed by splitting
the actual returned context on whitespace (never taken from the backend,
which only supplies the raw string). -/
theorem get_context_word_count (args : Args) (b : Backend) (q mt : Val) (ctx : String)
    (hq : List.lookup "query" args = some q)
    (hmt : (List.lookup "max_tokens" args).getD (.int 4000) = mt)
    (hres : b.get_search_context q mt = .ok ctx) :
    (call_tool "tavily_get_context" args b).1 = [⟨contextSuccessText q ctx mt⟩] ∧
    contextSuccessText q ctx mt =
      ("\n# Tavily Context for: \"" ++ pyStr q ++ "\"\n\n## Generated Context:\n\n")
        ++ ctx
        ++ ("\n\n---\n**Context Length:** ~" ++ toString (pySplit ctx).length
            ++ " words\n**Max Tokens Requested:** " ++ pyStr mt
            ++ "\n\n**Note:** This context is compiled from multiple web sources and formatted for RAG applications.\n") := by
  constructor
  · have hd : dispatchStep "tavily_get_context" args b =
        (.ok [⟨contextSuccessText q ctx mt⟩], [.get_search_context q mt]) := by
      rw [dispatchStep_ctx]
      unfold handle_get_context pyGetItem
      rw [hq]
      simp [hmt, hres]
    rw [call_tool_of_ok hd]
  · simp [contextSuccessText, String.append_assoc]

/-- Witness for C7: a backend stub returning a 10-word context string with
`max_tokens` 500; the reported word count is exactly 10. -/
theorem get_context_word_count_witness :
    (call_tool "tavily_get_context" [("query", Val.str "t"), ("max_tokens", Val.int 500)]
        stubBackend).1 =
      [⟨contextSuccessText (Val.str "t")
          "alpha beta gamma delta epsilon zeta eta theta iota kappa" (Val.int 500)⟩] ∧
    (pySplit "alpha beta gamma delta epsilon zeta eta theta iota kappa").length = 10 :=
  ⟨(get_context_word_count [("query", Val.str "t"), ("max_tokens", Val.int 500)] stubBackend
      (Val.str "t") (Val.int 500)
      "alpha beta gamma delta epsilon zeta eta theta iota kappa" rfl rfl rfl).1,
   by decide⟩

/-- Claim C8: a successful search renders at most `maxResults` numbered
record blocks even when the backend returned more records (the truncation
is performed by the formatter, via the slice), absent record fields render
as the literal `N/A`, and the response carries a count summary closing the
listing. -/
theorem search_success_formatting (args : Args) (b : Backend) (q : Val) (m : Int)
    (rs : List SearchRecord)
    (hq : List.lookup "query" args = some q)
    (hm : (List.lookup "max_results" args).getD (.int 5) = Val.int m)
    (h0 : 0 ≤ m)
    (hres : b.search (buildSearchParams args q) = .ok ⟨some rs⟩)
    (hne : rs.take m.toNat ≠ []) :
    (call_tool "tavily_search" args b).1 =
      [⟨searchSuccessText q
          ((enumFrom 1 (rs.take m.toNat)).map fun p => formatSearchResult p.1 p.2)⟩] ∧
    ((enumFrom 1 (rs.take m.toNat)).map fun p => formatSearchResult p.1 p.2).length =
      min m.toNat rs.length ∧
    ((enumFrom 1 (rs.take m.toNat)).map fun p => formatSearchResult p.1 p.2).length ≤
      m.toNat ∧
    (∀ blocks : List String, ∃ p s : String,
      searchSuccessText q blocks =
        p ++ ("Found " ++ toString blocks.length ++ " results:") ++ s) ∧
    (∀ (i : Nat) (r : SearchRecord), r.title = none → r.url = none → r.content = none →
      r.score = none →
      formatSearchResult i r =
        "\n**Result " ++ toString i ++
          ":**\n**Title:** N/A\n**URL:** N/A\n**Content:** N/A\n**Score:** N/A\n---\n") := by
  refine ⟨?_, ?_, ?_, ?_, ?_⟩
  · have hd : dispatchStep "tavily_search" args b =
        (.ok [⟨searchSuccessText q
            ((enumFrom 1 (rs.take m.toNat)).map fun p => formatSearchResult p.1 p.2)⟩],
          [.search (buildSearchParams args q)]) := by
      rw [dispatchStep_search]
      unfold handle_search pyGetItem
      rw [hq]
      simp [hm, hres, searchFormat, pySliceVal, h0,
        map_enumFrom_ne_nil (fun p => formatSearchResult p.1 p.2) _ hne]
    rw [call_tool_of_ok hd]
  · rw [List.length_map, enumFrom_length, List.length_take]
  · rw [List.length_map, enumFrom_length, List.length_take]
    exact Nat.min_le_left _ _
  · intro blocks
    refine ⟨"\n# Tavily Search Results for: \"" ++ pyStr q ++ "\"\n\n",
      "\n\n" ++ String.join blocks ++ "\n\n**Search completed successfully.**\n", ?_⟩
    unfold searchSuccessText
    rw [show ("\"\n\nFound " : String) = "\"\n\n" ++ "Found " from by decide,
      show (" results:\n\n" : String) = " results:" ++ "\n\n" from by decide]
    simp only [String.append_assoc]
  · intro i r h1 h2 h3 h4
    unfold formatSearchResult
    rw [h1, h2, h3, h4]
    show "\n**Result " ++ toString i ++ ":**\n**Title:** " ++ "N/A" ++ "\n**URL:** "
        ++ "N/A" ++ "\n**Content:** " ++ "N/A" ++ "\n**Score:** " ++ "N/A" ++ "\n---\n" = _
    simp only [String.append_assoc]
    congr 1

/-- Witness for C8: a backend returning two records, `max_results` 1; one
block is rendered and the second record is truncated by the formatter. -/
theorem search_success_formatting_witness :
    (call_tool "tavily_search" [("query", Val.str "x"), ("max_results", Val.int 1)]
        richBackend).1 =
      [⟨searchSuccessText (Val.str "x")
          ((enumFrom 1 (([searchRec1, searchRec2]).take (Int.toNat 1))).map
            fun p => formatSearchResult p.1 p.2)⟩] ∧
    ((enumFrom 1 (([searchRec1, searchRec2]).take (Int.toNat 1))).map
        fun p => formatSearchResult p.1 p.2).length =
      min (Int.toNat 1) ([searchRec1, searchRec2] : List SearchRecord).length := by
  have h := search_success_formatting
    [("query", Val.str "x"), ("max_results", Val.int 1)] richBackend (Val.str "x") 1
    [searchRec1, searchRec2] rfl rfl (by decide) rfl (List.cons_ne_nil _ _)
  exact ⟨h.1, h.2.1⟩

/-- Claim C9: a successful extraction renders two sections. Each extracted
record shows a content preview whose body is capped at 500 characters with
an ellipsis appended exactly when the full content is longer, plus the
untruncated content length; an image count appears only when
`include_images` is truthy and the record's image list is nonempty. Each
failed record shows its URL and failure reason. Each section heading
displays its own count (zero included). -/
theorem extract_success_formatting (args : Args) (b : Backend) (u inc : Val)
    (ers : List ExtractRecord) (frs : List FailedRecord)
    (hu : List.lookup "urls" args = some u)
    (hinc : (List.lookup "include_images" args).getD (.bool false) = inc)
    (hres : b.extract u inc = .ok ⟨some ers, some frs⟩) :
    (call_tool "tavily_extract_content" args b).1 =
      [⟨extractSuccessText ((enumFrom 1 ers).map fun p => formatExtractRecord inc p.1 p.2)
          (if frs.isEmpty then [] else frs.map formatFailedResult)⟩] ∧
    ((enumFrom 1 ers).map fun p => formatExtractRecord inc p.1 p.2).length = ers.length ∧
    (if frs.isEmpty then [] else frs.map formatFailedResult).length = frs.length ∧
    (∀ blocks failedLines : List String,
      extractSuccessText blocks failedLines =
        "\n# Tavily Content Extraction Results\n\n"
          ++ ("## Successfully Extracted (" ++ toString blocks.length ++ " URLs):")
          ++ "\n\n"
          ++ (if blocks.isEmpty then "No content successfully extracted."
              else String.join blocks)
          ++ "\n\n"
          ++ ("## Failed Extractions (" ++ toString failedLines.length ++ " URLs):")
          ++ "\n\n"
          ++ (if failedLines.isEmpty then "No failed extractions."
              else String.intercalate "\n" failedLines)
          ++ "\n\n**Extraction completed.**\n") ∧
    (∀ r : ExtractRecord, (strTake (extractRecordContent r) 500).length ≤ 500) ∧
    (∀ r : ExtractRecord, (extractRecordContent r).length ≤ 500 →
      extractPreview r = extractRecordContent r) ∧
    (∀ r : ExtractRecord, 500 < (extractRecordContent r).length →
      extractPreview r = strTake (extractRecordContent r) 500 ++ "..." ∧
      (strTake (extractRecordContent r) 500).length = 500) ∧
    (∀ (i : Nat) (r : ExtractRecord), ∃ p s : String,
      formatExtractRecord inc i r =
        p ++ ("**Full Content Length:** " ++ toString (extractRecordContent r).length
          ++ " characters") ++ s) ∧
    (∀ (r : ExtractRecord) (imgs : List Val), r.images = some imgs → truthy inc = true →
      imgs ≠ [] →
      imagesLine inc r = "**Images Found:** " ++ toString imgs.length ++ " images\n") ∧
    (∀ r : ExtractRecord, truthy inc = false → imagesLine inc r = "") ∧
    (∀ r : ExtractRecord, r.images = some [] → imagesLine inc r = "") ∧
    (∀ r : ExtractRecord, r.images = none → imagesLine inc r = "") ∧
    (∀ (f : FailedRecord) (uu ee : Val), f.url = some uu → f.error = some ee →
      formatFailedResult f = "- " ++ pyStr uu ++ ": " ++ pyStr ee) := by
  refine ⟨?_, ?_, ?_, ?_, ?_, ?_, ?_, ?_, ?_, ?_, ?_, ?_, ?_⟩
  · have hd : dispatchStep "tavily_extract_content" args b =
        (.ok [⟨extractSuccessText
            ((enumFrom 1 ers).map fun p => formatExtractRecord inc p.1 p.2)
            (if frs.isEmpty then [] else frs.map formatFailedResult)⟩],
          [.extract u inc]) := by
      rw [dispatchStep_extract]
      unfold handle_extract_content pyGetItem
      rw [hu]
      simp [hinc, hres, extractBlocks, extractFailedLines]
    rw [call_tool_of_ok hd]
  · rw [List.length_map, enumFrom_length]
  · cases frs with
    | nil => simp
    | cons f fs => simp [List.isEmpty]
  · intro blocks failedLines
    unfold extractSuccessText
    rw [show ("\n# Tavily Content Extraction Results\n\n## Successfully Extracted (" : String)
        = "\n# Tavily Content Extraction Results\n\n" ++ "## Successfully Extracted ("
        from by decide,
      show (" URLs):\n\n" : String) = " URLs):" ++ "\n\n" from by decide,
      show ("\n\n## Failed Extractions (" : String) = "\n\n" ++ "## Failed Extractions ("
        from by decide]
    simp only [String.append_assoc]
  · intro r
    rw [strTake_length]
    exact Nat.min_le_left _ _
  · intro r h
    unfold extractPreview
    rw [if_neg (by omega)]
    show (⟨(extractRecordContent r).data.take 500⟩ : String) = extractRecordContent r
    rw [List.take_of_length_le]
    exact h
  · intro r h
    refine ⟨by unfold extractPreview; rw [if_pos h], ?_⟩
    rw [strTake_length]
    omega
  · intro i r
    refine ⟨"\n**Extract " ++ toString i ++ ":**\n**URL:** "
        ++ pyStr (r.url.getD (.str "N/A")) ++ "\n**Content Preview:** "
        ++ extractPreview r ++ "\n",
      "\n" ++ imagesLine inc r ++ "---\n", ?_⟩
    unfold formatExtractRecord
    rw [show ("\n**Full Content Length:** " : String) = "\n" ++ "**Full Content Length:** "
        from by decide,
      show (" characters\n" : String) = " characters" ++ "\n" from by decide]
    simp only [String.append_assoc]
  · intro r imgs himg htr hne
    unfold imagesLine
    rw [himg, htr]
    cases imgs with
    | nil => exact absurd rfl hne
    | cons a as => rfl
  · intro r htr
    unfold imagesLine
    cases hr : r.images with
    | none => rfl
    | some imgs => rw [htr]; rfl
  · intro r himg
    unfold imagesLine
    rw [himg]
    simp
  · intro r himg
    unfold imagesLine
    rw [himg]
  · intro f uu ee hu' he'
    unfold formatFailedResult
    rw [hu', he']
    rfl

/-- Witness for C9: a concrete extraction with one extracted record (with
an image) and one failed record against a populated backend stub. -/
theorem extract_success_formatting_witness :
    (call_tool "tavily_extract_content"
        [("urls", Val.list [Val.str "http://a"]), ("include_images", Val.bool true)]
        richBackend).1 =
      [⟨extractSuccessText
          ((enumFrom 1 [extractRec1]).map fun p => formatExtractRecord (Val.bool true) p.1 p.2)
          (if ([failedRec1] : List FailedRecord).isEmpty then []
           else [failedRec1].map formatFailedResult)⟩] ∧
    imagesLine (Val.bool true) extractRec1 =
      "**Images Found:** " ++ toString ([Val.str "img1"] : List Val).length ++ " images\n" := by
  have h := extract_success_formatting
    [("urls", Val.list [Val.str "http://a"]), ("include_images", Val.bool true)]
    richBackend (Val.list [Val.str "http://a"]) (Val.bool true) [extractRec1] [failedRec1]
    rfl rfl rfl
  exact ⟨h.1, h.2.2.2.2.2.2.2.2.1 extractRec1 [Val.str "img1"] rfl rfl (List.cons_ne_nil _ _)⟩

lemma handle_search_congr (args args' : Args) (b : Backend)
    (h1 : List.lookup "query" args = List.lookup "query" args')
    (h2 : List.lookup "max_results" args = List.lookup "max_results" args')
    (h3 : filterTruthy (List.lookup "include_domains" args) =
      filterTruthy (List.lookup "include_domains" args'))
    (h4 : filterTruthy (List.lookup "exclude_domains" args) =
      filterTruthy (List.lookup "exclude_domains" args')) :
    handle_search args b = handle_search args' b := by
  unfold handle_search pyGetItem buildSearchParams
  rw [h1, h2, h3, h4]

/-- Claim C10: passing `include_domains` (or `exclude_domains`) as an empty
list behaves exactly as omitting the parameter: the whole dispatch outcome,
including the backend request made, is identical. -/
theorem empty_domain_filter_like_absent (args args' : Args) (b : Backend) :
    (List.lookup "query" args = List.lookup "query" args' →
     List.lookup "max_results" args = List.lookup "max_results" args' →
     List.lookup "exclude_domains" args = List.lookup "exclude_domains" args' →
     List.lookup "include_domains" args = some (Val.list []) →
     List.lookup "include_domains" args' = none →
     call_tool "tavily_search" args b = call_tool "tavily_search" args' b) ∧
    (List.lookup "query" args = List.lookup "query" args' →
     List.lookup "max_results" args = List.lookup "max_results" args' →
     List.lookup "include_domains" args = List.lookup "include_domains" args' →
     List.lookup "exclude_domains" args = some (Val.list []) →
     List.lookup "exclude_domains" args' = none →
     call_tool "tavily_search" args b = call_tool "tavily_search" args' b) := by
  constructor
  · intro h1 h2 h3 h4 h5
    have hc : handle_search args b = handle_search args' b :=
      handle_search_congr args args' b h1 h2
        (by rw [h4, h5]; simp [filterTruthy, truthy]) (by rw [h3])
    unfold call_tool
    rw [dispatchStep_search, dispatchStep_search, hc]
  · intro h1 h2 h3 h4 h5
    have hc : handle_search args b = handle_search args' b :=
      handle_search_congr args args' b h1 h2
        (by rw [h3]) (by rw [h4, h5]; simp [filterTruthy, truthy])
    unfold call_tool
    rw [dispatchStep_search, dispatchStep_search, hc]

/-- Witness for C10 at concrete argument mappings. -/
theorem empty_domain_filter_like_absent_witness :
    call_tool "tavily_search" [("query", Val.str "x"), ("include_domains", Val.list [])]
        stubBackend =
      call_tool "tavily_search" [("query", Val.str "x")] stubBackend ∧
    call_tool "tavily_search" [("query", Val.str "x"), ("exclude_domains", Val.list [])]
        stubBackend =
      call_tool "tavily_search" [("query", Val.str "x")] stubBackend :=
  ⟨(empty_domain_filter_like_absent
      [("query", Val.str "x"), ("include_domains", Val.list [])]
      [("query", Val.str "x")] stubBackend).1 rfl rfl rfl rfl rfl,
   (empty_domain_filter_like_absent
      [("query", Val.str "x"), ("exclude_domains", Val.list [])]
      [("query", Val.str "x")] stubBackend).2 rfl rfl rfl rfl rfl⟩

end Tavily
